import Mathlib

/-!
Verification of the tabletmanager agent (go/vt/tabletmanager/agent.go) against
its natural-language specification.

The Go code is shallowly embedded: every external effect (topology-store reads
and writes, DNS resolution, the database-daemon port query, the state-change
callback) is supplied as an explicit input, and stateful code is written as
explicit state passing. Go maps are embedded as association lists with unique
keys reachable by construction; a nil Go map is Option.none.
-/

namespace TabletManager

/-- A Go port map entry list, standing in for map[string]int. Lookup returns
the value stored at the first (and by construction only) occurrence of a key. -/
def pmFind? (m : List (String × Int)) (k : String) : Option Int :=
  match m with
  | [] => none
  | (k1, v1) :: rest => if k1 = k then some v1 else pmFind? rest k

/-- Reading a missing key from a Go map yields the zero value 0. -/
def pmGet (m : List (String × Int)) (k : String) : Int :=
  (pmFind? m k).getD 0

/-- Go map assignment m[k] = v: replace the binding if present, else add it. -/
def pmSet (m : List (String × Int)) (k : String) (v : Int) : List (String × Int) :=
  match m with
  | [] => [(k, v)]
  | (k1, v1) :: rest => if k1 = k then (k, v) :: rest else (k1, v1) :: pmSet rest k v

/-- Go delete(m, k): remove every binding of k (at most one by construction). -/
def pmDelete (m : List (String × Int)) (k : String) : List (String × Int) :=
  match m with
  | [] => []
  | (k1, v1) :: rest => if k1 = k then pmDelete rest k else (k1, v1) :: pmDelete rest k

/-- Tablet alias: cell name plus numeric uid (topo.TabletAlias). -/
structure TabletAlias where
  cell : String
  uid : Nat
  deriving Repr, DecidableEq

/-- Modelled from the spec: the TabletRecord (topo.Tablet, whose definition is
outside the excerpted source) carries hostname, IP address, a port map keyed by
service name, keyspace/shard identity, a serving type/role and the alias. The
field isRunningQueryService embeds the derived eligibility predicate
topo.TabletInfo.IsRunningQueryService, described by the spec only as whether
this tablet is currently eligible to serve queries; its derivation from the
type/role is not in the excerpted source, so it is kept as an abstract field.
portmap is none when the Go map is nil. -/
structure Tablet where
  tabletAlias : TabletAlias
  hostname : String
  ipAddr : String
  portmap : Option (List (String × Int))
  keyspace : String
  shard : String
  tabletType : String
  isRunningQueryService : Bool
  deriving Repr, DecidableEq

/-- The Go zero value topo.Tablet (used as the old record of the initial
state-change dispatch in Start). -/
def emptyTablet : Tablet :=
  { tabletAlias := { cell := "", uid := 0 }
    hostname := ""
    ipAddr := ""
    portmap := none
    keyspace := ""
    shard := ""
    tabletType := ""
    isRunningQueryService := false }

/-- Go read tablet.Portmap[k] (a nil map reads as empty). -/
def tabletPortFind (t : Tablet) (k : String) : Option Int :=
  pmFind? (t.portmap.getD []) k

/-- Go read tablet.Portmap[k] with the zero value for a missing key. -/
def tabletPortGet (t : Tablet) (k : String) : Int :=
  pmGet (t.portmap.getD []) k

/-- Go write tablet.Portmap[k] = v. (In Go, writing to a nil map panics; the
agent only writes to port maps it has initialized, and this embedding makes the
write total by treating nil as empty.) -/
def tabletPortSet (t : Tablet) (k : String) (v : Int) : Tablet :=
  { t with portmap := some (pmSet (t.portmap.getD []) k v) }

/-- Modelled from the spec: the TabletControl override record (topo.TabletControl,
defined outside the excerpted source) carries a set of blacklisted table names
and a disable-serving flag. -/
structure TabletControl where
  blacklistedTables : List String
  disableQueryService : Bool
  deriving Repr, DecidableEq

/-- Modelled from the spec: a HealthStreamReply (actionnode.HealthStreamReply,
defined outside the excerpted source) is a point-in-time health snapshot:
the health evaluation (none = healthy) and the measured replication delay.
The broadcaster never inspects its contents. -/
structure HealthStreamReply where
  healthError : Option String
  replicationDelay : Int
  deriving Repr, DecidableEq

/-- A Go buffered channel of HealthStreamReply, seen as a bounded queue: a
send appends when the buffer is below capacity. -/
structure HealthChan where
  capacity : Nat
  buffer : List HealthStreamReply
  deriving Repr, DecidableEq

/-- The select with a default branch in BroadcastHealthStreamReply: a
non-blocking send that appends the reply when the channel has free capacity
and silently drops it when the channel is full. Total, hence never blocking. -/
def trySend (c : HealthChan) (hsr : HealthStreamReply) : HealthChan :=
  if c.buffer.length < c.capacity then { c with buffer := c.buffer ++ [hsr] } else c

/-- BroadcastHealthStreamReply (agent.go): under healthStreamMutex, attempt a
non-blocking send of hsr on every registered channel. The registry is the
healthStreamMap, embedded as a list of (index, channel) pairs. -/
def BroadcastHealthStreamReply (reg : List (Nat × HealthChan)) (hsr : HealthStreamReply) :
    List (Nat × HealthChan) :=
  reg.map (fun p => (p.1, trySend p.2 hsr))

/-- The mutex-protected fields of ActionAgent (the tablet state store). -/
structure AgentState where
  tablet : Option Tablet
  tabletControl : Option TabletControl
  waitingForMysql : Bool
  healthy : Option String
  replicationDelay : Int
  healthStreamIndex : Nat
  healthStreamMap : List (Nat × HealthChan)

/-- The mutex-protected state as initialized by NewActionAgent (and likewise
NewTestActionAgent): the zero value for every field except healthy, which is
set to the sentinel error fmt.Errorf("healthcheck not run yet"), and the
freshly made empty healthStreamMap. healthy = none models a nil error. -/
def newAgentState : AgentState :=
  { tablet := none
    tabletControl := none
    waitingForMysql := false
    healthy := some "healthcheck not run yet"
    replicationDelay := 0
    healthStreamIndex := 0
    healthStreamMap := [] }

/-- Healthy (agent.go): read the latest healthcheck result under the mutex. -/
def Healthy (s : AgentState) : Int × Option String :=
  (s.replicationDelay, s.healthy)

/-- BlacklistedTables (agent.go): the blacklisted tables of the TabletControl
record if any, else the nil slice (embedded as the empty list). -/
def BlacklistedTables (s : AgentState) : List String :=
  match s.tabletControl with
  | none => []
  | some tc => tc.blacklistedTables

/-- DisableQueryService (agent.go): the DisableQueryService field of the
TabletControl record if any, else false. -/
def DisableQueryService (s : AgentState) : Bool :=
  match s.tabletControl with
  | none => false
  | some tc => tc.disableQueryService

/-- verifyTopology (agent.go): error only when the cached tablet record is
nil; a topo.Validate failure (validateRes = error) is logged as a warning and
deliberately does not stop startup. -/
def verifyTopology (validateRes : Except String Unit) (cached : Option Tablet) :
    Except String Unit :=
  match cached with
  | none => .error "agent._tablet is nil"
  | some _ =>
    match validateRes with
    | .error _ => .ok ()
    | .ok _ => .ok ()

/-- The external steps of verifyServingAddrs: the result of computing the
tablet record service endpoint (Tablet.EndPoint, outside the excerpted
source, so its outcome is an oracle input) and the result of
TopoServer.UpdateTabletEndpoint. -/
structure ServingEnv where
  endPoint : Except String Unit
  updateEndpoint : Except String Unit

/-- verifyServingAddrs (agent.go). Returns the Go result together with two
trace flags: whether the endpoint was computed and whether the serving-address
directory of the topology store was contacted. When the cached tablet is not
running the query service the function returns nil at once and both flags
stay false. -/
def verifyServingAddrs (env : ServingEnv) (tablet : Tablet) :
    Except String Unit × Bool × Bool :=
  if !tablet.isRunningQueryService then (.ok (), false, false)
  else
    match env.endPoint with
    | .error e => (.error e, true, false)
    | .ok _ => (env.updateEndpoint, true, true)

/-- checkTabletMysqlPort (agent.go), with the results of
MysqlDaemon.GetMysqlPort and topo.UpdateTablet as oracle inputs. Returns the
tablet record as it stands after the call (the Go code assigns
tablet.Portmap["mysql"] = mport on the record in place, before attempting the
topology write) together with the Go return value (some updated record, or
nil when nothing needs updating or the write failed). -/
def checkTabletMysqlPort (mysqlPortRes : Except String Int) (updateTabletOk : Bool)
    (tablet : Tablet) : Tablet × Option Tablet :=
  match mysqlPortRes with
  | .error _ => (tablet, none)
  | .ok mport =>
    if mport = tabletPortGet tablet "mysql" then (tablet, none)
    else
      let mutated := tabletPortSet tablet "mysql" mport
      if updateTabletOk then (mutated, some mutated) else (mutated, none)

/-- The external steps of refreshTablet: the result of topo.GetTablet for this
alias, the database-daemon port query, the topology write-back, and the
registered change callback (agent.changeCallback). -/
structure RefreshEnv where
  getTablet : Except String Tablet
  mysqlPortRes : Except String Int
  updateTabletOk : Bool
  changeCallback : Tablet → Tablet → Except String Unit

/-- Outcome of a refreshTablet call: the cached record afterward, the Go
return value, and the list of state-change dispatches (old record, new record,
reason) performed during the call. -/
structure RefreshResult where
  cached : Tablet
  result : Except String Unit
  dispatches : List (Tablet × Tablet × String)

/-- refreshTablet (agent.go): save the old cached record, re-read the tablet
record (a failure is returned with the reason in the message and no dispatch
runs), run the port drift check, then run updateState comparing old and new.
The record ti returned by readTablet is the very object just installed in the
cache, so the in-place port mutation of checkTabletMysqlPort is visible in the
cache whether or not the topology write succeeded; the conditional
reinstallation of a non-nil updatedTablet stores the same object again. -/
def refreshTablet (env : RefreshEnv) (cached0 : Tablet) (reason : String) :
    RefreshResult :=
  let oldTablet := cached0
  match env.getTablet with
  | .error e =>
    { cached := cached0
      result := .error ("Failed rereading tablet after " ++ reason ++ ": " ++ e)
      dispatches := [] }
  | .ok ti =>
    let checked := checkTabletMysqlPort env.mysqlPortRes env.updateTabletOk ti
    let cached1 := checked.1
    let cached2 :=
      match checked.2 with
      | some updatedTablet => updatedTablet
      | none => cached1
    { cached := cached2
      result := env.changeCallback oldTablet cached2
      dispatches := [(oldTablet, cached2, reason)] }

/-- The read-modify-write mutator f defined inside Start (agent.go): set
hostname and IP address, make the port map if it is nil, overwrite the mysql
port only when it is known (nonzero), always set the vt port, and set the vts
port when nonzero or delete the entry otherwise. The Go function always
returns nil. -/
def registerMutator (mysqlPort vtPort vtsPort : Int) (hostname ipAddr : String)
    (t : Tablet) : Tablet :=
  let pm0 := t.portmap.getD []
  let pm1 := if mysqlPort ≠ 0 then pmSet pm0 "mysql" mysqlPort else pm0
  let pm2 := pmSet pm1 "vt" vtPort
  let pm3 := if vtsPort ≠ 0 then pmSet pm2 "vts" vtsPort else pmDelete pm2 "vts"
  { t with hostname := hostname, ipAddr := ipAddr, portmap := some pm3 }

/-- The external steps of Start: the stored tablet record in the topology
store, whether each topology read fails (none = success), the hostname flag
and resolution, the DNS lookup, whether UpdateTabletFields fails, the
topo.Validate result, the serving-address steps, and the registered change
callback. -/
structure StartEnv where
  store : Tablet
  readFail1 : Option String
  hostnameFlag : String
  resolveHostname : Except String String
  lookupHost : Except String (List String)
  updateFieldsFail : Option String
  readFail2 : Option String
  validateRes : Except String Unit
  serving : ServingEnv
  changeCallback : Tablet → Tablet → Except String Unit

/-- Hostname selection in Start: the tablet_hostname flag when not empty,
otherwise DNS resolution of the fully qualified hostname. -/
def resolvedHostname (env : StartEnv) : Except String String :=
  if env.hostnameFlag ≠ "" then .ok env.hostnameFlag else env.resolveHostname

/-- Outcome of a Start call: the Go result, the cached record afterward (none
when still unset), the record now in the topology store, and the list of
state-change dispatches (old record, new record, reason) performed. -/
structure StartResult where
  result : Except String Unit
  cached : Option Tablet
  store : Tablet
  dispatches : List (Tablet × Tablet × String)

/-- Start (agent.go): read the tablet record, resolve hostname and IP, apply
the registerMutator to the stored record via UpdateTabletFields, re-read,
verifyTopology (never fatal when a record is cached), verifyServingAddrs (an
error here is returned), and finally run the initial updateState comparing the
empty record against the freshly loaded one — a failure of that dispatch is
only logged and Start still returns nil. -/
def Start (env : StartEnv) (mysqlPort vtPort vtsPort : Int) : StartResult :=
  match env.readFail1 with
  | some e => { result := .error e, cached := none, store := env.store, dispatches := [] }
  | none =>
    let cached := env.store
    match resolvedHostname env with
    | .error e =>
      { result := .error e, cached := some cached, store := env.store, dispatches := [] }
    | .ok hostname =>
      match env.lookupHost with
      | .error e =>
        { result := .error e, cached := some cached, store := env.store, dispatches := [] }
      | .ok ipAddrs =>
        let ipAddr := ipAddrs.headD ""
        match env.updateFieldsFail with
        | some e =>
          { result := .error e, cached := some cached, store := env.store, dispatches := [] }
        | none =>
          let newStore := registerMutator mysqlPort vtPort vtsPort hostname ipAddr env.store
          match env.readFail2 with
          | some e =>
            { result := .error e, cached := some cached, store := newStore, dispatches := [] }
          | none =>
            let cached := newStore
            match verifyTopology env.validateRes (some cached) with
            | .error e =>
              { result := .error e, cached := some cached, store := newStore, dispatches := [] }
            | .ok _ =>
              match (verifyServingAddrs env.serving cached).1 with
              | .error e =>
                { result := .error e, cached := some cached, store := newStore,
                  dispatches := [] }
              | .ok _ =>
                let _cbRes := env.changeCallback emptyTablet cached
                { result := .ok (), cached := some cached, store := newStore,
                  dispatches := [(emptyTablet, cached, "Start")] }

/-! Concrete fixtures used by witnesses and counterexamples. -/

/-- A concrete serving tablet record with mysql port 3306 and vt port 15000. -/
def sampleTablet : Tablet :=
  { tabletAlias := { cell := "cell1", uid := 100 }
    hostname := "host-a"
    ipAddr := "10.0.0.1"
    portmap := some [("mysql", 3306), ("vt", 15000)]
    keyspace := "ks"
    shard := "0"
    tabletType := "master"
    isRunningQueryService := true }

/-- sampleTablet with serving eligibility turned off. -/
def nonServingTablet : Tablet :=
  { sampleTablet with tabletType := "spare", isRunningQueryService := false }

/-- A serving environment in which every topology-store step would fail. -/
def servingEnvAllFail : ServingEnv :=
  { endPoint := .error "empty port map", updateEndpoint := .error "node not found" }

/-- Refresh environment whose topology re-read fails with a not-found error. -/
def refreshReadFailEnv : RefreshEnv :=
  { getTablet := .error "node not found"
    mysqlPortRes := .ok 3306
    updateTabletOk := true
    changeCallback := fun _ _ => .ok () }

/-- Refresh environment in which the daemon reports mysql port 3307 against a
cached 3306 and the topology write-back fails. -/
def portDriftEnv : RefreshEnv :=
  { getTablet := .ok sampleTablet
    mysqlPortRes := .ok 3307
    updateTabletOk := false
    changeCallback := fun _ _ => .ok () }

/-- Start environment in which everything succeeds except the serving-address
republication, which fails inside UpdateTabletEndpoint. -/
def startServingFailEnv : StartEnv :=
  { store := sampleTablet
    readFail1 := none
    hostnameFlag := "host-a"
    resolveHostname := .ok "host-a"
    lookupHost := .ok ["10.0.0.1"]
    updateFieldsFail := none
    readFail2 := none
    validateRes := .ok ()
    serving := { endPoint := .ok (), updateEndpoint := .error "node not found" }
    changeCallback := fun _ _ => .ok () }

/-- Start environment in which every topology step succeeds but the initial
state-change callback fails. -/
def startCallbackFailEnv : StartEnv :=
  { store := sampleTablet
    readFail1 := none
    hostnameFlag := "host-a"
    resolveHostname := .ok "host-a"
    lookupHost := .ok ["10.0.0.1"]
    updateFieldsFail := none
    readFail2 := none
    validateRes := .ok ()
    serving := { endPoint := .ok (), updateEndpoint := .ok () }
    changeCallback := fun _ _ => .error "callback failed" }

/-- A sample health snapshot. -/
def hsrDelay2 : HealthStreamReply := { healthError := none, replicationDelay := 2 }

/-- Another sample health snapshot. -/
def hsrDelay5 : HealthStreamReply := { healthError := some "behind", replicationDelay := 5 }

/-- A subscriber channel that is already full. -/
def fullChan : HealthChan := { capacity := 1, buffer := [hsrDelay5] }

/-- A subscriber channel with free capacity. -/
def freeChan : HealthChan := { capacity := 2, buffer := [] }

/-- A registry holding one full and one free subscriber channel. -/
def sampleRegistry : List (Nat × HealthChan) := [(0, fullChan), (1, freeChan)]

/-! Helper lemmas. -/

theorem pmFind_pmSet_eq (m : List (String × Int)) (k : String) (v : Int) :
    pmFind? (pmSet m k v) k = some v := by
  induction m with
  | nil => simp [pmSet, pmFind?]
  | cons hd tl ih =>
    obtain ⟨k1, v1⟩ := hd
    by_cases h : k1 = k <;> simp [pmSet, pmFind?, h, ih]

theorem pmFind_pmSet_ne (m : List (String × Int)) (k k1 : String) (v : Int)
    (h : k ≠ k1) : pmFind? (pmSet m k1 v) k = pmFind? m k := by
  induction m with
  | nil => simp [pmSet, pmFind?, Ne.symm h]
  | cons hd tl ih =>
    obtain ⟨k2, v2⟩ := hd
    by_cases h2 : k2 = k1
    · subst h2
      simp [pmSet, pmFind?, Ne.symm h]
    · by_cases h3 : k2 = k <;> simp [pmSet, pmFind?, h, h2, h3, ih]

theorem pmFind_pmDelete_ne (m : List (String × Int)) (k k1 : String)
    (h : k ≠ k1) : pmFind? (pmDelete m k1) k = pmFind? m k := by
  induction m with
  | nil => simp [pmDelete]
  | cons hd tl ih =>
    obtain ⟨k2, v2⟩ := hd
    by_cases h2 : k2 = k1
    · subst h2
      simp [pmDelete, pmFind?, Ne.symm h, ih]
    · by_cases h3 : k2 = k <;> simp [pmDelete, pmFind?, h, h2, h3, ih]

theorem verifyTopology_some_ok (validateRes : Except String Unit) (t : Tablet) :
    verifyTopology validateRes (some t) = .ok () := by
  cases validateRes <;> rfl

/-! Claim theorems. -/

/-- C4: for every freshly constructed agent, before any health check has run,
the health status returned by Healthy is the sentinel error
"healthcheck not run yet"; in particular it is non-nil, never the healthy
value (none). -/
theorem newAgent_health_sentinel :
    (Healthy newAgentState).2 = some "healthcheck not run yet" ∧
    (Healthy newAgentState).2 ≠ none := by
  refine ⟨rfl, ?_⟩
  simp [Healthy, newAgentState]

/-- C6: whenever the cached tablet record is non-nil, verifyTopology returns
nil even when the topo.Validate consistency check fails — the failure is only
logged and does not abort startup. -/
theorem verifyTopology_tolerates_validate_failure (validateRes : Except String Unit)
    (t : Tablet) : verifyTopology validateRes (some t) = .ok () :=
  verifyTopology_some_ok validateRes t

/-- C7: when the cached tablet record is not eligible to run the query
service, verifyServingAddrs returns nil immediately, without computing an
endpoint and without contacting the serving-address directory of the topology
store. -/
theorem verifyServingAddrs_skips_when_not_serving (env : ServingEnv) (t : Tablet)
    (h : t.isRunningQueryService = false) :
    verifyServingAddrs env t = (.ok (), false, false) := by
  simp [verifyServingAddrs, h]

/-- C7 witness: the skip happens even in an environment where every
topology-store step would fail. -/
theorem verifyServingAddrs_skips_when_not_serving_witness :
    verifyServingAddrs servingEnvAllFail nonServingTablet = (.ok (), false, false) :=
  verifyServingAddrs_skips_when_not_serving servingEnvAllFail nonServingTablet rfl

/-- C10: when no TabletControl override record is set, BlacklistedTables
returns the empty (nil) table list and DisableQueryService returns false. -/
theorem defaults_without_tabletControl (s : AgentState) (h : s.tabletControl = none) :
    BlacklistedTables s = [] ∧ DisableQueryService s = false := by
  simp [BlacklistedTables, DisableQueryService, h]

/-- C10 witness: the freshly constructed agent state has no override record. -/
theorem defaults_without_tabletControl_witness :
    BlacklistedTables newAgentState = [] ∧ DisableQueryService newAgentState = false :=
  defaults_without_tabletControl newAgentState rfl

/-- C2: when the topology re-read fails, refreshTablet returns an error whose
message contains the reason string (the message is exactly
"Failed rereading tablet after reason: err") and the state-change dispatcher
is not invoked during that call. -/
theorem refreshTablet_read_error_surfaced (env : RefreshEnv) (cached0 : Tablet)
    (reason e : String) (h : env.getTablet = .error e) :
    (refreshTablet env cached0 reason).result =
      .error ("Failed rereading tablet after " ++ reason ++ ": " ++ e) ∧
    (refreshTablet env cached0 reason).dispatches = [] := by
  simp [refreshTablet, h]

/-- C2 witness: a refresh with reason finalize-reparent against a not-found
topology read. -/
theorem refreshTablet_read_error_surfaced_witness :
    (refreshTablet refreshReadFailEnv sampleTablet "finalize-reparent").result =
      .error ("Failed rereading tablet after " ++ "finalize-reparent" ++ ": " ++
        "node not found") ∧
    (refreshTablet refreshReadFailEnv sampleTablet "finalize-reparent").dispatches = [] :=
  refreshTablet_read_error_surfaced refreshReadFailEnv sampleTablet "finalize-reparent"
    "node not found" rfl

/-- C3: evaluation of the code at the failing input. The daemon reports port
3307 against a cached 3306 and the topology write-back fails; the claim (and
the spec) say the cached record keeps the old port 3306, but the record was
mutated in place before the failed write and it is the very object installed
in the cache, so the cached mysql port is 3307. No error is returned. -/
theorem refreshTablet_failed_writeback_still_updates_cache :
    tabletPortGet (refreshTablet portDriftEnv sampleTablet "drift").cached "mysql" = 3307 ∧
    tabletPortGet sampleTablet "mysql" = 3306 ∧
    (refreshTablet portDriftEnv sampleTablet "drift").result = .ok () :=
  ⟨rfl, rfl, rfl⟩

/-- C5: the read-modify-write mutator applied during Register overwrites only
the hostname, the IP address and the mysql/vt/vts port-map entries: every
port-map entry under another key and every other field keep their prior
values, and when the MySQL port is unknown (mysqlPort = 0) the stored mysql
entry is left untouched. -/
theorem registerMutator_frame (mysqlPort vtPort vtsPort : Int)
    (hostname ipAddr : String) (t : Tablet) (k : String)
    (hk : k ≠ "mysql" ∧ k ≠ "vt" ∧ k ≠ "vts") :
    tabletPortFind (registerMutator mysqlPort vtPort vtsPort hostname ipAddr t) k =
      tabletPortFind t k ∧
    (registerMutator mysqlPort vtPort vtsPort hostname ipAddr t).tabletAlias =
      t.tabletAlias ∧
    (registerMutator mysqlPort vtPort vtsPort hostname ipAddr t).keyspace = t.keyspace ∧
    (registerMutator mysqlPort vtPort vtsPort hostname ipAddr t).shard = t.shard ∧
    (registerMutator mysqlPort vtPort vtsPort hostname ipAddr t).tabletType =
      t.tabletType ∧
    (registerMutator mysqlPort vtPort vtsPort hostname ipAddr t).isRunningQueryService =
      t.isRunningQueryService ∧
    (mysqlPort = 0 →
      tabletPortFind (registerMutator mysqlPort vtPort vtsPort hostname ipAddr t)
          "mysql" =
        tabletPortFind t "mysql") := by
  obtain ⟨hk1, hk2, hk3⟩ := hk
  refine ⟨?_, rfl, rfl, rfl, rfl, rfl, ?_⟩
  · have s1 : ∀ m v, pmFind? (pmSet m "mysql" v) k = pmFind? m k :=
      fun m v => pmFind_pmSet_ne m k "mysql" v hk1
    have s2 : ∀ m v, pmFind? (pmSet m "vt" v) k = pmFind? m k :=
      fun m v => pmFind_pmSet_ne m k "vt" v hk2
    have s3 : ∀ m v, pmFind? (pmSet m "vts" v) k = pmFind? m k :=
      fun m v => pmFind_pmSet_ne m k "vts" v hk3
    have d3 : ∀ m, pmFind? (pmDelete m "vts") k = pmFind? m k :=
      fun m => pmFind_pmDelete_ne m k "vts" hk3
    by_cases hm : mysqlPort = 0 <;> by_cases hv : vtsPort = 0 <;>
      simp [registerMutator, tabletPortFind, hm, hv, s1, s2, s3, d3]
  · intro h0
    have s2 : ∀ m v, pmFind? (pmSet m "vt" v) "mysql" = pmFind? m "mysql" :=
      fun m v => pmFind_pmSet_ne m "mysql" "vt" v (by decide)
    have s3 : ∀ m v, pmFind? (pmSet m "vts" v) "mysql" = pmFind? m "mysql" :=
      fun m v => pmFind_pmSet_ne m "mysql" "vts" v (by decide)
    have d3 : ∀ m, pmFind? (pmDelete m "vts") "mysql" = pmFind? m "mysql" :=
      fun m => pmFind_pmDelete_ne m "mysql" "vts" (by decide)
    by_cases hv : vtsPort = 0 <;>
      simp [registerMutator, tabletPortFind, h0, hv, s2, s3, d3]

/-- C5 witness: registering with unknown mysql port and no vts port, checked
at the foreign key grpc. -/
theorem registerMutator_frame_witness :
    tabletPortFind (registerMutator 0 15000 0 "host-a" "10.0.0.1" sampleTablet) "grpc" =
      tabletPortFind sampleTablet "grpc" ∧
    (registerMutator 0 15000 0 "host-a" "10.0.0.1" sampleTablet).tabletAlias =
      sampleTablet.tabletAlias ∧
    (registerMutator 0 15000 0 "host-a" "10.0.0.1" sampleTablet).keyspace =
      sampleTablet.keyspace ∧
    (registerMutator 0 15000 0 "host-a" "10.0.0.1" sampleTablet).shard =
      sampleTablet.shard ∧
    (registerMutator 0 15000 0 "host-a" "10.0.0.1" sampleTablet).tabletType =
      sampleTablet.tabletType ∧
    (registerMutator 0 15000 0 "host-a" "10.0.0.1" sampleTablet).isRunningQueryService =
      sampleTablet.isRunningQueryService ∧
    ((0 : Int) = 0 →
      tabletPortFind (registerMutator 0 15000 0 "host-a" "10.0.0.1" sampleTablet)
          "mysql" =
        tabletPortFind sampleTablet "mysql") :=
  registerMutator_frame 0 15000 0 "host-a" "10.0.0.1" sampleTablet "grpc" (by decide)

/-- C8: a broadcast attempts a non-blocking send on every currently
registered channel: the registry keeps its length, every entry keeps its key,
a channel with free capacity receives the reply appended to its buffer, and a
full channel is left unchanged (the delivery is silently dropped). The
embedding of the send is a total function, so the broadcaster never blocks on
any subscriber. -/
theorem broadcast_nonblocking_delivery (reg : List (Nat × HealthChan))
    (hsr : HealthStreamReply) (i n : Nat) (c : HealthChan)
    (h : reg[i]? = some (n, c)) :
    (BroadcastHealthStreamReply reg hsr)[i]? =
      some (n, if c.buffer.length < c.capacity
               then { c with buffer := c.buffer ++ [hsr] } else c) ∧
    (BroadcastHealthStreamReply reg hsr).length = reg.length := by
  constructor
  · simp [BroadcastHealthStreamReply, List.getElem?_map, h, trySend]
  · simp [BroadcastHealthStreamReply]

/-- C8 witness: broadcasting over a registry holding a full channel (entry 0)
and a free channel; the full channel drops the delivery. -/
theorem broadcast_nonblocking_delivery_witness :
    (BroadcastHealthStreamReply sampleRegistry hsrDelay2)[0]? =
      some (0, if fullChan.buffer.length < fullChan.capacity
               then { fullChan with buffer := fullChan.buffer ++ [hsrDelay2] }
               else fullChan) ∧
    (BroadcastHealthStreamReply sampleRegistry hsrDelay2).length =
      sampleRegistry.length :=
  broadcast_nonblocking_delivery sampleRegistry hsrDelay2 0 0 fullChan rfl

/-- C1 counterexample: a Start execution in which verifyServingAddrs fails
(the endpoint republication returns node not found) and Start returns exactly
that error, contradicting the claim that the failure is swallowed and startup
continues. -/
theorem start_servingAddrs_error_is_returned_cex :
    (verifyServingAddrs startServingFailEnv.serving
        (registerMutator 3306 15000 0 "host-a" "10.0.0.1" startServingFailEnv.store)).1 =
      .error "node not found" ∧
    (Start startServingFailEnv 3306 15000 0).result = .error "node not found" :=
  ⟨rfl, rfl⟩

/-- C1 (amended): when startup reaches the serving-address verification and
that step returns an error, Start is aborted: it returns that very error and
the initial state-change dispatch never runs. -/
theorem start_servingAddrs_error_fatal (env : StartEnv)
    (mysqlPort vtPort vtsPort : Int) (hostname : String) (ipAddrs : List String)
    (e : String)
    (h1 : env.readFail1 = none)
    (h2 : resolvedHostname env = .ok hostname)
    (h3 : env.lookupHost = .ok ipAddrs)
    (h4 : env.updateFieldsFail = none)
    (h5 : env.readFail2 = none)
    (h6 : (verifyServingAddrs env.serving
        (registerMutator mysqlPort vtPort vtsPort hostname (ipAddrs.headD "")
          env.store)).1 = .error e) :
    (Start env mysqlPort vtPort vtsPort).result = .error e ∧
    (Start env mysqlPort vtPort vtsPort).dispatches = [] := by
  rw [List.headD_eq_head?] at h6
  simp [Start, h1, h2, h3, h4, h5, verifyTopology_some_ok, h6]

/-- C1 witness: the amended behavior at the concrete failing environment. -/
theorem start_servingAddrs_error_fatal_witness :
    (Start startServingFailEnv 3306 15000 0).result = .error "node not found" ∧
    (Start startServingFailEnv 3306 15000 0).dispatches = [] :=
  start_servingAddrs_error_fatal startServingFailEnv 3306 15000 0 "host-a"
    ["10.0.0.1"] "node not found" rfl rfl rfl rfl rfl rfl

/-- C9 counterexample: a Start execution in which every topology step succeeds
but the initial state-change callback fails; Start still returns nil (the
failure is only logged), contradicting the claim that it is fatal to
construction. The dispatch did run once, comparing the empty record against
the freshly loaded one. -/
theorem start_dispatch_failure_not_fatal_cex :
    startCallbackFailEnv.changeCallback emptyTablet
      (registerMutator 3306 15000 0 "host-a" "10.0.0.1" startCallbackFailEnv.store) =
      .error "callback failed" ∧
    (Start startCallbackFailEnv 3306 15000 0).result = .ok () ∧
    (Start startCallbackFailEnv 3306 15000 0).dispatches =
      [(emptyTablet,
        registerMutator 3306 15000 0 "host-a" "10.0.0.1" startCallbackFailEnv.store,
        "Start")] :=
  ⟨rfl, rfl, rfl⟩

/-- C9 (amended): after Register, Reload and both verification steps succeed,
Start invokes the state-change dispatch exactly once, comparing the empty
tablet record against the freshly loaded one, and Start returns nil whatever
the outcome of that dispatch — a dispatch failure is logged and swallowed, not
fatal to construction. -/
theorem start_initial_dispatch_once_nonfatal (env : StartEnv)
    (mysqlPort vtPort vtsPort : Int) (hostname : String) (ipAddrs : List String)
    (h1 : env.readFail1 = none)
    (h2 : resolvedHostname env = .ok hostname)
    (h3 : env.lookupHost = .ok ipAddrs)
    (h4 : env.updateFieldsFail = none)
    (h5 : env.readFail2 = none)
    (h6 : (verifyServingAddrs env.serving
        (registerMutator mysqlPort vtPort vtsPort hostname (ipAddrs.headD "")
          env.store)).1 = .ok ()) :
    (Start env mysqlPort vtPort vtsPort).result = .ok () ∧
    (Start env mysqlPort vtPort vtsPort).dispatches =
      [(emptyTablet,
        registerMutator mysqlPort vtPort vtsPort hostname (ipAddrs.headD "") env.store,
        "Start")] := by
  rw [List.headD_eq_head?] at h6
  simp [Start, h1, h2, h3, h4, h5, verifyTopology_some_ok, h6]

/-- C9 witness: the amended behavior at the concrete environment whose
initial callback fails. -/
theorem start_initial_dispatch_once_nonfatal_witness :
    (Start startCallbackFailEnv 3306 15000 0).result = .ok () ∧
    (Start startCallbackFailEnv 3306 15000 0).dispatches =
      [(emptyTablet,
        registerMutator 3306 15000 0 "host-a" "10.0.0.1" startCallbackFailEnv.store,
        "Start")] :=
  start_initial_dispatch_once_nonfatal startCallbackFailEnv 3306 15000 0 "host-a"
    ["10.0.0.1"] rfl rfl rfl rfl rfl rfl

end TabletManager
